import Mathlib

/-!
Verification of the Book/Author request-validation and query-filtering
contract of the library API repository.

The repository's logic lives in two Django-REST-framework serializer
modules and one view module:
  - books/serializers.py      (AuthorSerializer with book_count,
                               BookSerializer with published_year and the
                               isbn / published_date / published_year
                               field validators)
  - library_api/serializers.py (plain AuthorSerializer, BookSerializer
                               with a genre field)
  - library_api/views.py      (BookListCreateView.get_queryset filtering
                               by genre and author_id, ordering fields)

The models module is not part of the sources; the entity shapes below are
taken from the specification's data model (Author: id, name, optional bio;
Book: id, title, owning author reference, published_date, isbn, optional
genre).  Python `datetime.date` values compare lexicographically on
(year, month, day), which `pyDateLt` reproduces.
-/

namespace LibraryApi

/-- Calendar date as Python's `datetime.date`: a (year, month, day) triple
compared lexicographically. -/
structure PyDate where
  year : Int
  month : Nat
  day : Nat
  deriving DecidableEq, Repr

/-- Python `<` on dates: lexicographic on (year, month, day). -/
def pyDateLt (a b : PyDate) : Bool :=
  decide (a.year < b.year) ||
    (decide (a.year = b.year) &&
      (decide (a.month < b.month) ||
        (decide (a.month = b.month) && decide (a.day < b.day))))

/-- Python `<=` on dates (total order, so `a <= b` is `not (b < a)`). -/
def pyDateLe (a b : PyDate) : Bool :=
  !(pyDateLt b a)

/-- Modelled from the spec: Author entity of the missing models module —
id (system-assigned), name (required text), bio (optional text). -/
structure Author where
  id : Nat
  name : String
  bio : Option String
  deriving DecidableEq, Repr

/-- Modelled from the spec: Book entity of the missing models module —
id, title, owning reference to exactly one Author (by id),
published_date, isbn, optional genre. -/
structure Book where
  id : Nat
  title : String
  author : Nat
  published_date : PyDate
  isbn : String
  genre : Option String
  deriving DecidableEq, Repr

/-! ### books/serializers.py : field validators -/

/-- `BookSerializer.validate_isbn`: raise ValidationError when
`len(value) != 13`, otherwise return the value unchanged.  The message
string is exactly the one in the source (including its misspelling
"exaclty" and the trailing period). -/
def validate_isbn (value : String) : Except String String :=
  if value.length ≠ 13 then
    Except.error "ISBN must be exaclty 13 characters."
  else
    Except.ok value

/-- `BookSerializer.validate_published_date`: raise ValidationError when
`value > date.today()`, otherwise return the value unchanged. -/
def validate_published_date (today : PyDate) (value : PyDate) : Except String PyDate :=
  if pyDateLt today value then
    Except.error "Published date cannot be in future."
  else
    Except.ok value

/-- `BookSerializer.validate_published_year`: same check with a different
message.  Dead code in the source: `published_year` is a
SerializerMethodField, hence read-only, so this validator is never
invoked on any write (see `runBookWrite`). -/
def validate_published_year (today : PyDate) (value : PyDate) : Except String PyDate :=
  if pyDateLt today value then
    Except.error "Published year cannot be in future."
  else
    Except.ok value

/-- `BookSerializer.get_published_year`: `obj.published_date.year`. -/
def get_published_year (b : Book) : Int :=
  b.published_date.year

/-- `AuthorSerializer.get_book_count`: `obj.books.count()`.  Modelled from
the spec for the reverse accessor of the missing models module:
`obj.books` is the set of Books whose author reference is `obj.id`, and
`count()` is its size, computed against the current table contents. -/
def get_book_count (books : List Book) (authorId : Nat) : Nat :=
  (books.filter (fun b => b.author == authorId)).length

/-! ### C1: isbn length rule -/

/-- C1: on every Book write, an isbn whose length is not 13 is rejected by
`validate_isbn` with a validation error, and an isbn of length exactly 13
(any content) is accepted by this rule. -/
theorem isbn_length_rule (s : String) :
    (validate_isbn s = Except.ok s ↔ s.length = 13) ∧
    (validate_isbn s = Except.error "ISBN must be exaclty 13 characters." ↔
      ¬ s.length = 13) := by
  unfold validate_isbn
  by_cases h : s.length = 13 <;> simp [h]

/-! ### C2: published_date not-in-future rule -/

/-- C2: on every Book write, a published_date strictly after the current
date (lexicographically later (year, month, day) triple) is rejected by
`validate_published_date`, and a published_date equal to or before the
current date passes this rule.  The third conjunct spells out that
`pyDateLt today v` is exactly "v is strictly after today". -/
theorem published_date_rule (today v : PyDate) :
    (validate_published_date today v =
        Except.error "Published date cannot be in future." ↔
      pyDateLt today v = true) ∧
    (validate_published_date today v = Except.ok v ↔ pyDateLt today v = false) ∧
    (pyDateLt today v = true ↔
      (today.year < v.year ∨
        (today.year = v.year ∧
          (today.month < v.month ∨
            (today.month = v.month ∧ today.day < v.day))))) := by
  refine ⟨?_, ?_, ?_⟩
  · unfold validate_published_date
    by_cases h : pyDateLt today v = true <;> simp [h]
  · unfold validate_published_date
    by_cases h : pyDateLt today v = true <;> simp [h]
  · simp [pyDateLt]

/-! ### C4: derived published_year field -/

/-- Author representation produced by `AuthorSerializer` of
books/serializers.py: id, name, bio, book_count. -/
structure AuthorOut where
  id : Nat
  name : String
  bio : Option String
  book_count : Nat
  deriving DecidableEq, Repr

/-- `AuthorSerializer` (books/serializers.py) serialization of an Author
against the current Book table. -/
def serializeAuthor (books : List Book) (a : Author) : AuthorOut :=
  { id := a.id, name := a.name, bio := a.bio,
    book_count := get_book_count books a.id }

/-- Book representation produced by `BookSerializer` of
books/serializers.py: id, title, nested author, published_date,
published_year, isbn. -/
structure BookOut where
  id : Nat
  title : String
  author : AuthorOut
  published_date : PyDate
  published_year : Int
  isbn : String
  deriving DecidableEq, Repr

/-- `BookSerializer` (books/serializers.py) serialization of a Book whose
author row is `a`, against the current Book table. -/
def serializeBook (books : List Book) (a : Author) (b : Book) : BookOut :=
  { id := b.id, title := b.title, author := serializeAuthor books a,
    published_date := b.published_date,
    published_year := get_published_year b, isbn := b.isbn }

/-- C4: for every Book in a response, the read-only published_year field
equals the year component of the stored published_date, for every date. -/
theorem published_year_is_year_of_published_date
    (books : List Book) (a : Author) (b : Book) :
    (serializeBook books a b).published_year = b.published_date.year :=
  rfl

/-! ### library_api/views.py : BookListCreateView.get_queryset -/

/-- The `queryset.filter(genre=genre)` call: keep Books whose stored genre
equals the parameter's literal value. -/
def restrictGenre (g : String) (books : List Book) : List Book :=
  books.filter (fun b => b.genre == some g)

/-- The `queryset.filter(author_id=author_id)` call: keep Books whose
author reference equals the given identifier. -/
def restrictAuthor (a : Nat) (books : List Book) : List Book :=
  books.filter (fun b => b.author == a)

/-- `BookListCreateView.get_queryset`: start from all Books, apply the
genre restriction when the `genre` query parameter is present, then the
author restriction when `author_id` is present. -/
def get_queryset (books : List Book) (genre : Option String)
    (author_id : Option Nat) : List Book :=
  let q := books
  let q := match genre with
    | some g => restrictGenre g q
    | none => q
  match author_id with
  | some a => restrictAuthor a q
  | none => q

/-- C3: with neither parameter the list is all Books; with only `genre`
it is exactly the Books whose genre equals the literal value; with only
`author_id` exactly the Books whose author reference equals it; with both,
the result is the intersection of the two sets (membership is conjunction
of the two restrictions over the full table). -/
theorem get_queryset_filter_semantics (books : List Book) (g : String) (a : Nat) :
    (get_queryset books none none = books) ∧
    (get_queryset books (some g) none = books.filter (fun b => b.genre == some g)) ∧
    (get_queryset books none (some a) = books.filter (fun b => b.author == a)) ∧
    (∀ x : Book, x ∈ get_queryset books (some g) (some a) ↔
      ((x ∈ books ∧ x.genre = some g) ∧ (x ∈ books ∧ x.author = a))) := by
  refine ⟨rfl, rfl, rfl, fun x => ?_⟩
  simp only [get_queryset, restrictGenre, restrictAuthor, List.mem_filter,
    beq_iff_eq]
  tauto

/-! ### C10: the two restrictions commute and are idempotent -/

/-- C10: applying the genre restriction then the author restriction (the
source's order) equals the opposite order, and each restriction applied
twice equals itself applied once; `get_queryset` with both parameters is
exactly the composition the source writes. -/
theorem restrictions_commute_and_idempotent
    (books : List Book) (g : String) (a : Nat) :
    (restrictAuthor a (restrictGenre g books) =
      restrictGenre g (restrictAuthor a books)) ∧
    (restrictGenre g (restrictGenre g books) = restrictGenre g books) ∧
    (restrictAuthor a (restrictAuthor a books) = restrictAuthor a books) ∧
    (get_queryset books (some g) (some a) =
      restrictAuthor a (restrictGenre g books)) := by
  refine ⟨?_, ?_, ?_, rfl⟩ <;>
    induction books with
    | nil => rfl
    | cons x xs ih =>
      simp only [restrictGenre, restrictAuthor, List.filter_cons] at *
      by_cases hg : (x.genre == some g) = true <;>
        by_cases ha : (x.author == a) = true <;>
          simp [hg, ha, ih]

/-! ### C5: book_count is the live reference count -/

/-- The live number of Books referencing an Author, in the spec's words:
"the number of Books whose author reference is that Author's id at the
moment the response is produced". -/
def liveBookCount (books : List Book) (authorId : Nat) : Nat :=
  (books.filter (fun b => b.author == authorId)).length

/-- Entity-store insert of a new Book row. -/
def createBook (books : List Book) (b : Book) : List Book :=
  books ++ [b]

/-- Entity-store delete of the Book row(s) with the given id. -/
def deleteBook (books : List Book) (i : Nat) : List Book :=
  books.filter (fun b => !(b.id == i))

/-- Entity-store update reassigning the Book with the given id to a new
author. -/
def reassignBook (books : List Book) (i : Nat) (newAuthor : Nat) : List Book :=
  books.map (fun b => if b.id == i then { b with author := newAuthor } else b)

/-- Number of rows of the current table satisfying a predicate. -/
def countWith (books : List Book) (p : Book → Bool) : Nat :=
  (books.filter p).length

theorem countWith_congr (books : List Book) (p q : Book → Bool)
    (h : ∀ x, p x = q x) : countWith books p = countWith books q := by
  induction books with
  | nil => rfl
  | cons x xs ih =>
    simp only [countWith, List.filter_cons] at *
    rw [h x]
    cases hq : q x <;> simp [hq, ih]

theorem countWith_filter (p q : Book → Bool) (books : List Book) :
    countWith (books.filter p) q = countWith books (fun x => q x && p x) := by
  simp [countWith]

theorem countWith_map (f : Book → Book) (q : Book → Bool) (books : List Book) :
    countWith (books.map f) q = countWith books (fun x => q (f x)) := by
  induction books with
  | nil => rfl
  | cons x xs ih =>
    simp only [countWith, List.map_cons, List.filter_cons] at *
    cases hq : q (f x) <;> simp [hq, ih]

theorem countWith_split (p q : Book → Bool) (books : List Book) :
    countWith books q =
      countWith books (fun x => p x && q x) +
        countWith books (fun x => !(p x) && q x) := by
  induction books with
  | nil => rfl
  | cons x xs ih =>
    simp only [countWith, List.filter_cons] at *
    cases hp : p x <;> cases hq : q x <;> simp [hp, hq, ih] <;> omega

theorem countWith_ite (p c q : Book → Bool) (books : List Book) :
    countWith books (fun x => if p x then c x else q x) =
      countWith books (fun x => p x && c x) +
        countWith books (fun x => !(p x) && q x) := by
  induction books with
  | nil => rfl
  | cons x xs ih =>
    simp only [countWith, List.filter_cons] at *
    cases hp : p x <;> cases hc : c x <;> cases hq : q x <;>
      simp [hp, hc, hq, ih] <;> omega

/-- C5: `get_book_count` always equals the live count of Books referencing
the author in the state it is evaluated on (no stored or cached value),
and it tracks every store operation exactly: a create raises the new
author's count by one and no other; a delete lowers each author's count by
the number of removed rows referencing them; a reassignment moves exactly
the reassigned rows between the two authors' counts. -/
theorem book_count_is_live :
    (∀ (books : List Book) (authorId : Nat),
      get_book_count books authorId = liveBookCount books authorId) ∧
    (∀ (books : List Book) (b : Book) (authorId : Nat),
      get_book_count (createBook books b) authorId =
        get_book_count books authorId +
          (if b.author = authorId then 1 else 0)) ∧
    (∀ (books : List Book) (i authorId : Nat),
      get_book_count (deleteBook books i) authorId +
          countWith books (fun x => x.id == i && x.author == authorId) =
        get_book_count books authorId) ∧
    (∀ (books : List Book) (i newAuthor authorId : Nat),
      get_book_count (reassignBook books i newAuthor) authorId =
        countWith books (fun x => !(x.id == i) && x.author == authorId) +
          (if newAuthor = authorId then countWith books (fun x => x.id == i)
           else 0)) := by
  refine ⟨fun books a => rfl, ?_, ?_, ?_⟩
  · intro books b a
    by_cases h : b.author = a <;>
      simp [get_book_count, createBook, List.filter_append, h]
  · intro books i a
    have h1 : countWith (books.filter (fun b => !(b.id == i)))
        (fun b => b.author == a) =
        countWith books (fun x => x.author == a && !(x.id == i)) :=
      countWith_filter _ _ books
    have h1x : countWith books (fun x => x.author == a && !(x.id == i)) =
        countWith books (fun x => !(x.id == i) && x.author == a) :=
      countWith_congr books _ _ (fun x => Bool.and_comm _ _)
    have h2 : countWith books (fun x => x.author == a) =
        countWith books (fun x => x.id == i && x.author == a) +
          countWith books (fun x => !(x.id == i) && x.author == a) :=
      countWith_split _ _ books
    show countWith (books.filter (fun b => !(b.id == i)))
        (fun b => b.author == a) +
        countWith books (fun x => x.id == i && x.author == a) =
      countWith books (fun x => x.author == a)
    omega
  · intro books i na a
    have h1 : get_book_count (reassignBook books i na) a =
        countWith books
          (fun x => (if x.id == i then { x with author := na } else x).author == a) :=
      countWith_map _ _ books
    have h2 : countWith books
        (fun x => (if x.id == i then { x with author := na } else x).author == a) =
        countWith books (fun x => if x.id == i then (na == a) else x.author == a) :=
      countWith_congr books _ _ (fun x => by
        by_cases h : (x.id == i) = true <;> simp [h])
    have h3 : countWith books
        (fun x => if x.id == i then (na == a) else x.author == a) =
        countWith books (fun x => x.id == i && (na == a)) +
          countWith books (fun x => !(x.id == i) && x.author == a) :=
      countWith_ite _ _ _ books
    by_cases hna : na = a
    · have h4 : countWith books (fun x => x.id == i && (na == a)) =
          countWith books (fun x => x.id == i) :=
        countWith_congr books _ _ (fun x => by simp [hna])
      rw [if_pos hna]
      omega
    · have h4 : countWith books (fun x => x.id == i && (na == a)) =
          countWith books (fun _ => false) :=
        countWith_congr books _ _ (fun x => by simp [hna])
      have h5 : countWith books (fun _ => false) = 0 := by
        simp [countWith]
      rw [if_neg hna]
      omega

/-! ### C6: declared serializer fields of the two Book serializer variants -/

/-- `BookSerializer.Meta.fields` in books/serializers.py, verbatim. -/
def booksVariantBookFields : List String :=
  ["id", "title", "author", "author_id", "published_date", "published_year", "isbn"]

/-- `BookSerializer.Meta.fields` in library_api/serializers.py, verbatim. -/
def libraryVariantBookFields : List String :=
  ["id", "title", "author", "author_id", "published_date", "isbn", "genre"]

/-- Read-only fields of the books-variant BookSerializer: `id` (model
serializer primary key), `author` (declared `read_only=True`) and
`published_year` (a SerializerMethodField, read-only by construction). -/
def booksVariantReadOnlyFields : List String :=
  ["id", "author", "published_year"]

/-- Read-only fields of the library_api-variant BookSerializer: `id` and
`author` (declared `read_only=True`). -/
def libraryVariantReadOnlyFields : List String :=
  ["id", "author"]

/-- The fields a write payload may supply: the declared fields minus the
read-only ones. -/
def writableFields (fields readOnly : List String) : List String :=
  fields.filter (fun f => !(readOnly.contains f))

/-- C6 counterexample: `genre` is not among the declared fields of the
books-variant BookSerializer at all (so in particular it is not an
accepted input field of that variant's write contract). -/
theorem genre_missing_from_books_variant :
    booksVariantBookFields.contains "genre" = false ∧
    (writableFields booksVariantBookFields booksVariantReadOnlyFields).contains
        "genre" = false := by
  exact ⟨rfl, rfl⟩

/-- C6 amended: both variants accept title, author_id, published_date and
isbn on writes; `genre` is an accepted input field of the library_api
variant only — the books variant's field list omits it. -/
theorem book_write_fields_by_variant :
    writableFields booksVariantBookFields booksVariantReadOnlyFields =
      ["title", "author_id", "published_date", "isbn"] ∧
    writableFields libraryVariantBookFields libraryVariantReadOnlyFields =
      ["title", "author_id", "published_date", "isbn", "genre"] ∧
    "genre" ∈ libraryVariantBookFields ∧
    booksVariantBookFields.contains "genre" = false := by
  refine ⟨rfl, rfl, ?_, rfl⟩
  simp [libraryVariantBookFields]

/-! ### C8: the isbn rejection message -/

/-- C8 counterexample: on the length-3 input "123" the validator rejects
with the source's literal message, which is not the string the claim
states (the source misspells "exactly" as "exaclty" and ends with a
period). -/
theorem isbn_message_counterexample :
    validate_isbn "123" = Except.error "ISBN must be exaclty 13 characters." ∧
    ("ISBN must be exaclty 13 characters." ==
        "ISBN must be exactly 13 characters") = false := by
  exact ⟨rfl, rfl⟩

/-- C8 amended: a Book write whose isbn length is not 13 fails with
exactly the message "ISBN must be exaclty 13 characters." (the source's
literal text), and that is the only input condition producing it. -/
theorem isbn_rejection_message (s : String) :
    validate_isbn s = Except.error "ISBN must be exaclty 13 characters." ↔
      s.length ≠ 13 := by
  unfold validate_isbn
  by_cases h : s.length = 13 <;> simp [h]

/-! ### C9: a client-supplied published_year is never consumed -/

/-- Raw write payload for the books-variant BookSerializer.  A client may
also send a `published_year` member; the serializer declares
`published_year` as a SerializerMethodField (read-only), so the write path
never reads it. -/
structure BookPayload where
  title : Option String
  author_id : Option Nat
  published_date : Option PyDate
  isbn : Option String
  published_year : Option Int
  deriving DecidableEq, Repr

/-- Validated entity produced by a successful Book write. -/
structure ValidatedBook where
  title : String
  author : Nat
  published_date : PyDate
  isbn : String
  deriving DecidableEq, Repr

/-- Write path of the books-variant BookSerializer: to_internal_value
consumes exactly the writable declared fields (title, author_id,
published_date, isbn) and runs their field validators; `published_year`
is read-only, so `validate_published_year` is dead code and the payload's
published_year member is dropped. -/
def runBookWrite (today : PyDate) (p : BookPayload) : Except String ValidatedBook :=
  match p.title, p.author_id, p.published_date, p.isbn with
  | some t, some a, some d, some i =>
    match validate_isbn i, validate_published_date today d with
    | Except.ok i2, Except.ok d2 =>
      Except.ok { title := t, author := a, published_date := d2, isbn := i2 }
    | Except.error e, _ => Except.error e
    | _, Except.error e => Except.error e
  | _, _, _, _ => Except.error "This field is required."

/-- Entity-store insert of a validated Book write under a fresh id (the
books-variant serializer has no genre field, so genre keeps its store
default). -/
def storeNewBook (nextId : Nat) (v : ValidatedBook) : Book :=
  { id := nextId, title := v.title, author := v.author,
    published_date := v.published_date, isbn := v.isbn, genre := none }

/-- C9: two write payloads that differ only in a client-supplied
published_year member produce the same validated entity, the same stored
Book, and the same serialized response — the published_year of the
response depends only on the stored published_date. -/
theorem published_year_input_never_consumed
    (today : PyDate) (p : BookPayload) (y1 y2 : Option Int)
    (books : List Book) (authorRow : Author) (nextId : Nat) :
    (runBookWrite today { p with published_year := y1 } =
      runBookWrite today { p with published_year := y2 }) ∧
    ((runBookWrite today { p with published_year := y1 }).map
        (fun v => storeNewBook nextId v) =
      (runBookWrite today { p with published_year := y2 }).map
        (fun v => storeNewBook nextId v)) ∧
    ((runBookWrite today { p with published_year := y1 }).map
        (fun v => serializeBook books authorRow (storeNewBook nextId v)) =
      (runBookWrite today { p with published_year := y2 }).map
        (fun v => serializeBook books authorRow (storeNewBook nextId v))) :=
  ⟨rfl, rfl, rfl⟩

/-! ### C7: ordering capability of the Book list endpoint -/

/-- The field names the view declares for ordering
(`order_fields = ['title', 'published_date', 'genre']`). -/
def order_fields : List String :=
  ["title", "published_date", "genre"]

theorem pyDateLt_true_iff (a b : PyDate) :
    pyDateLt a b = true ↔
      (a.year < b.year ∨ (a.year = b.year ∧
        (a.month < b.month ∨ (a.month = b.month ∧ a.day < b.day)))) := by
  simp [pyDateLt]

theorem pyDateLe_total (a b : PyDate) :
    pyDateLe a b = true ∨ pyDateLe b a = true := by
  simp only [pyDateLe, Bool.not_eq_true']
  rw [← Bool.not_eq_true, ← Bool.not_eq_true, pyDateLt_true_iff, pyDateLt_true_iff]
  omega

theorem pyDateLe_trans (a b c : PyDate) (h1 : pyDateLe a b = true)
    (h2 : pyDateLe b c = true) : pyDateLe a c = true := by
  simp only [pyDateLe, Bool.not_eq_true'] at *
  rw [← Bool.not_eq_true] at h1 h2 ⊢
  rw [pyDateLt_true_iff] at h1 h2 ⊢
  omega

/-- Comparison key for each requestable ordering field: `title` compares
book titles, `published_date` compares the stored dates, `genre` compares
genre values (an absent genre sorts as the empty string, the store
default for an optional text column). -/
def orderedBy (field : String) (a b : Book) : Prop :=
  if field = "title" then a.title ≤ b.title
  else if field = "published_date" then
    pyDateLe a.published_date b.published_date = true
  else if field = "genre" then a.genre.getD "" ≤ b.genre.getD ""
  else True

instance (field : String) : DecidableRel (orderedBy field) := fun a b => by
  unfold orderedBy
  infer_instance

instance (field : String) : IsTotal Book (orderedBy field) := by
  constructor
  intro a b
  unfold orderedBy
  split_ifs
  · exact le_total _ _
  · exact pyDateLe_total _ _
  · exact le_total _ _
  · exact Or.inl trivial

instance (field : String) : IsTrans Book (orderedBy field) := by
  constructor
  intro a b c hab hbc
  unfold orderedBy at *
  split_ifs at * with h1 h2 h3
  · exact le_trans hab hbc
  · exact pyDateLe_trans _ _ _ hab hbc
  · exact le_trans hab hbc

/-- Modelled from the spec: the ordering capability of the Book list
endpoint — the framework's OrderingFilter (an external collaborator, not
repository code) returns the filtered queryset sorted by the requested
field; the requestable fields are the ones the view lists. -/
def applyOrdering (field : String) (books : List Book) : List Book :=
  List.insertionSort (orderedBy field) books

/-- C7: each of title, published_date and genre is a declared ordering
field, and requesting it returns the same Books (a permutation of the
unordered result) sorted by that field's key. -/
theorem ordering_by_each_declared_field (books : List Book) :
    ("title" ∈ order_fields ∧
      List.Sorted (orderedBy "title") (applyOrdering "title" books) ∧
      List.Perm (applyOrdering "title" books) books) ∧
    ("published_date" ∈ order_fields ∧
      List.Sorted (orderedBy "published_date")
        (applyOrdering "published_date" books) ∧
      List.Perm (applyOrdering "published_date" books) books) ∧
    ("genre" ∈ order_fields ∧
      List.Sorted (orderedBy "genre") (applyOrdering "genre" books) ∧
      List.Perm (applyOrdering "genre" books) books) := by
  refine ⟨⟨?_, List.sorted_insertionSort _ _, List.perm_insertionSort _ _⟩,
    ⟨?_, List.sorted_insertionSort _ _, List.perm_insertionSort _ _⟩,
    ⟨?_, List.sorted_insertionSort _ _, List.perm_insertionSort _ _⟩⟩ <;>
  simp [order_fields]

end LibraryApi
